import Mathlib

/-!
Verification of the appliance-state decision engine in
`Power-Optimizer-API-main/energy_optimizer.py`.

The Python module is a pure decision engine: given a room, an occupancy
reading, a list of appliances and an optional outdoor temperature, it
recommends one `ApplianceState` per appliance.  The embedding below mirrors
the source function by function.  Python `float` arithmetic is modelled with
exact rationals (`ℚ`); Python `round` (banker's rounding, half to even) is
modelled by `pyRound`, and Python `int()` truncation toward zero by `pyInt`.
Timestamps (`updated_at`, `detected_at`) carry no decision content and are
omitted from the state records.
-/

/-- Python `round`: round half to even (banker's rounding), on exact rationals. -/
def pyRound (q : ℚ) : ℤ :=
  if q - Int.floor q < 1/2 then Int.floor q
  else if 1/2 < q - Int.floor q then Int.floor q + 1
  else if Int.floor q % 2 = 0 then Int.floor q else Int.floor q + 1

/-- Python `int()` applied to a real value: truncation toward zero. -/
def pyInt (q : ℚ) : ℤ := if 0 ≤ q then Int.floor q else Int.ceil q

/-- Python `str.upper()` restricted to ASCII strings (all strings in this
program are ASCII appliance-type tags). -/
def upperAscii (s : String) : String := String.mk (s.data.map Char.toUpper)

/-- Mirror of the `SeatingArea` dataclass. -/
structure SeatingArea where
  name : String
  room_id : Int
deriving Repr, DecidableEq

/-- The single active seating area, `MTA_1` (room_id hardcoded to 1). -/
def MTA_1 : SeatingArea := ⟨"MTA_1", 1⟩

/-- Mirror of the `Room` dataclass. -/
structure Room where
  room_id : Int
  max_capacity : Int
deriving Repr, DecidableEq

/-- Mirror of the `Occupancy` dataclass (the timestamp and confidence fields
play no role in any decision and are omitted). -/
structure Occupancy where
  room_id : Int
  people_count : Int
deriving Repr, DecidableEq

/-- Mirror of the `Appliance` dataclass. -/
structure Appliance where
  appliance_id : Int
  room_id : Int
  appliance_type : String
  max_power_watts : Int
  adjustable : Bool
  number_of_appliances : Int
deriving Repr, DecidableEq

/-- Mirror of the `ApplianceState` dataclass (output record; `updated_at`
timestamp omitted). -/
structure ApplianceState where
  appliance_id : Int
  appliance_type : String
  status : String
  level : Option Int
  setpoint_c : Option ℚ
  estimated_power_watts : Int
deriving Repr, DecidableEq

/-- Mirror of `PEOPLE_PER_UNIT.get(appliance_type, 1)`: the people-per-unit
table with default 1 for unlisted types. -/
def PEOPLE_PER_UNIT (appliance_type : String) : Int :=
  if appliance_type = "AC" then 6
  else if appliance_type = "FAN" then 4
  else if appliance_type = "LIGHT" then 2
  else 1

/-- Fallback AC setpoint when the outdoor temperature is unknown. -/
def AC_SETPOINT_FALLBACK_C : ℚ := 24

/-- Mirror of `_tbase_formula`: the AC setpoint
`25 - floor((T_out - 25) / 4)` clamped to `[22, 25]`, with the fixed
fallback when the temperature is absent. -/
def _tbase_formula (outside_temp_c : Option ℚ) : ℚ :=
  match outside_temp_c with
  | none => AC_SETPOINT_FALLBACK_C
  | some t => max 22 (min 25 ((25 : ℚ) - (Int.floor ((t - 25) / 4) : ℤ)))

/-- Mirror of `_clamp_level`: clamp an intensity level to `[1, 10]`. -/
def _clamp_level (level : Int) : Int := max 1 (min 10 level)

/-- Mirror of `_setpoint_to_level`:
`level = 10 - round((setpoint_c - 22) / 3 * 9)`, clamped to `[1, 10]`. -/
def _setpoint_to_level (setpoint_c : ℚ) : Int :=
  _clamp_level (10 - pyRound ((setpoint_c - 22) / 3 * 9))

/-- Mirror of `_compute_units_on`: number of physical units to energize. -/
def _compute_units_on (appliance_type : String) (available_units : Int)
    (people : Int) : Int :=
  let per_unit_cap := PEOPLE_PER_UNIT appliance_type
  if people ≤ 0 then 0
  else max 1 (min available_units (Int.ceil ((people : ℚ) / (per_unit_cap : ℚ))))

/-- Mirror of `_decide_appliance_state`: returns
`(should_run, level, units_on)`.  The `load_factor` argument is accepted but
unused, exactly as in the source. -/
def _decide_appliance_state (appliance : Appliance) (people : Int)
    (load_factor : ℚ) : Bool × Option Int × Int :=
  let appliance_type := upperAscii appliance.appliance_type
  if people < 1 ∧ (appliance_type = "LIGHT" ∨ appliance_type = "FAN") then
    (false, none, 0)
  else if people < 2 ∧ appliance_type = "AC" then
    (false, none, 0)
  else
    let units_on := _compute_units_on appliance_type appliance.number_of_appliances people
    if ¬ appliance.adjustable then
      (true, none, units_on)
    else
      let per_unit_cap := PEOPLE_PER_UNIT appliance_type
      let load_per_unit : ℚ :=
        if units_on ≠ 0 then
          min 1 ((people : ℚ) / ((units_on : ℚ) * (per_unit_cap : ℚ)))
        else 0
      (true, some (_clamp_level (pyRound (load_per_unit * 10))), units_on)

/-- Mirror of `_estimate_power`: `units = max(1, units_on)`; when the
appliance is adjustable and the level is truthy (present and nonzero),
`int(max_power_watts * (level / 10) * units)`, else
`max_power_watts * units`. -/
def _estimate_power (appliance : Appliance) (level : Option Int)
    (units_on : Int) : Int :=
  let units := max 1 units_on
  match level with
  | some l =>
      if appliance.adjustable ∧ l ≠ 0 then
        pyInt ((appliance.max_power_watts : ℚ) * ((l : ℚ) / 10) * (units : ℚ))
      else appliance.max_power_watts * units
  | none => appliance.max_power_watts * units

/-- Mirror of `_apply_temperature_bias`: nudge a level by a temperature step
bias and re-clamp; when the temperature is absent the level passes through
unchanged (and unclamped). -/
def _apply_temperature_bias (level : Int) (outside_temp_c : Option ℚ) : Int :=
  match outside_temp_c with
  | none => level
  | some t =>
      let bias : Int :=
        if 32 ≤ t then 2
        else if 28 ≤ t then 1
        else if t ≤ 18 then -2
        else if t ≤ 22 then -1
        else 0
      _clamp_level (level + bias)

/-- Structured form of the `ValueError` messages raised by the engine; each
constructor records the ids named in the corresponding message. -/
inductive ValidationError where
  | roomMismatch (room_id expected : Int)
  | occupancyMismatch (room_id expected : Int)
  | applianceMismatch (appliance_id room_id expected : Int)
  | nonPositiveCapacity
deriving Repr, DecidableEq

/-- First appliance whose `room_id` differs from the seating area's, in list
order (the loop in `_validate_inputs`). -/
def firstApplianceMismatch (appliances : List Appliance)
    (seating_area : SeatingArea) : Option ValidationError :=
  match appliances with
  | [] => none
  | appliance :: rest =>
      if appliance.room_id ≠ seating_area.room_id then
        some (.applianceMismatch appliance.appliance_id appliance.room_id
          seating_area.room_id)
      else firstApplianceMismatch rest seating_area

/-- Mirror of `_validate_inputs`: room, occupancy, then each appliance in
order is checked against `seating_area.room_id`; the first mismatch is
reported, `none` means all checks passed. -/
def _validate_inputs (room : Room) (occupancy : Occupancy)
    (appliances : List Appliance) (seating_area : SeatingArea) :
    Option ValidationError :=
  if room.room_id ≠ seating_area.room_id then
    some (.roomMismatch room.room_id seating_area.room_id)
  else if occupancy.room_id ≠ seating_area.room_id then
    some (.occupancyMismatch occupancy.room_id seating_area.room_id)
  else firstApplianceMismatch appliances seating_area

/-- State produced for one appliance in the base-load (empty room) branch of
`optimize_room`: AC is ON at a maintenance level derived from the outdoor
temperature, everything else is OFF. -/
def _empty_room_state (outside_temp_c : Option ℚ) (appliance : Appliance) :
    ApplianceState :=
  let setpoint_c := _tbase_formula outside_temp_c
  let maintenance_level := _setpoint_to_level setpoint_c
  if upperAscii appliance.appliance_type = "AC" then
    { appliance_id := appliance.appliance_id
      appliance_type := appliance.appliance_type
      status := "ON"
      level := some maintenance_level
      setpoint_c := some setpoint_c
      estimated_power_watts := _estimate_power appliance (some maintenance_level) 1 }
  else
    { appliance_id := appliance.appliance_id
      appliance_type := appliance.appliance_type
      status := "OFF"
      level := none
      setpoint_c := none
      estimated_power_watts := 0 }

/-- State produced for one appliance in the normal occupancy branch of
`optimize_room`. -/
def _occupied_state (people : Int) (load_factor : ℚ)
    (outside_temp_c : Option ℚ) (appliance : Appliance) : ApplianceState :=
  let d := _decide_appliance_state appliance people load_factor
  if ¬ d.1 then
    { appliance_id := appliance.appliance_id
      appliance_type := appliance.appliance_type
      status := "OFF"
      level := none
      setpoint_c := none
      estimated_power_watts := 0 }
  else
    let level := match d.2.1 with
      | some l => some (_apply_temperature_bias l outside_temp_c)
      | none => none
    let is_ac := upperAscii appliance.appliance_type = "AC"
    { appliance_id := appliance.appliance_id
      appliance_type := appliance.appliance_type
      status := "ON"
      level := level
      setpoint_c := if is_ac then some (_tbase_formula outside_temp_c) else none
      estimated_power_watts := _estimate_power appliance level d.2.2 }

/-- Mirror of `optimize_room`: validate, check capacity, then branch on
`people_count == 0` (base load) versus normal occupancy, producing one state
per appliance in input order. -/
def optimize_room (room : Room) (occupancy : Occupancy)
    (appliances : List Appliance) (outside_temp_c : Option ℚ)
    (seating_area : SeatingArea := MTA_1) :
    Except ValidationError (List ApplianceState) :=
  match _validate_inputs room occupancy appliances seating_area with
  | some e => .error e
  | none =>
    if room.max_capacity ≤ 0 then .error .nonPositiveCapacity
    else if occupancy.people_count = 0 then
      .ok (appliances.map (_empty_room_state outside_temp_c))
    else
      let load_factor : ℚ :=
        min 1 ((occupancy.people_count : ℚ) / (room.max_capacity : ℚ))
      .ok (appliances.map
        (_occupied_state occupancy.people_count load_factor outside_temp_c))

/-! ### General lemmas about the helpers -/

theorem pyRound_ge_floor (q : ℚ) : Int.floor q ≤ pyRound q := by
  unfold pyRound
  split_ifs <;> omega

theorem pyRound_le_floor_add_one (q : ℚ) : pyRound q ≤ Int.floor q + 1 := by
  unfold pyRound
  split_ifs <;> omega

theorem pyRound_mono {a b : ℚ} (h : a ≤ b) : pyRound a ≤ pyRound b := by
  have hab : Int.floor a ≤ Int.floor b := Int.floor_le_floor h
  rcases eq_or_lt_of_le hab with hfe | hflt
  · unfold pyRound
    rw [← hfe]
    have hfr : a - (Int.floor a : ℚ) ≤ b - (Int.floor a : ℚ) := by linarith
    split_ifs <;> first | omega | linarith
  · calc pyRound a ≤ Int.floor a + 1 := pyRound_le_floor_add_one a
      _ ≤ Int.floor b := by omega
      _ ≤ pyRound b := pyRound_ge_floor b

theorem one_le_clamp_level (x : Int) : 1 ≤ _clamp_level x := by
  unfold _clamp_level; omega

theorem clamp_level_le_ten (x : Int) : _clamp_level x ≤ 10 := by
  unfold _clamp_level; omega

theorem clamp_level_mono {x y : Int} (h : x ≤ y) :
    _clamp_level x ≤ _clamp_level y := by
  unfold _clamp_level; omega

theorem PEOPLE_PER_UNIT_pos (s : String) : 0 < PEOPLE_PER_UNIT s := by
  unfold PEOPLE_PER_UNIT
  split_ifs <;> norm_num

theorem temperature_bias_mono_level {x y : Int} (t : Option ℚ) (h : x ≤ y) :
    _apply_temperature_bias x t ≤ _apply_temperature_bias y t := by
  cases t with
  | none => exact h
  | some t => exact clamp_level_mono (by omega)

theorem temperature_bias_lb {x : Int} (t : Option ℚ) (hx : 1 ≤ x) :
    1 ≤ _apply_temperature_bias x t := by
  cases t with
  | none => exact hx
  | some t => exact one_le_clamp_level _

theorem temperature_bias_mono_temp (x : Int) {t1 t2 : ℚ} (h : t1 ≤ t2) :
    _apply_temperature_bias x (some t1) ≤ _apply_temperature_bias x (some t2) := by
  unfold _apply_temperature_bias
  apply clamp_level_mono
  split_ifs <;> first | omega | linarith

theorem tbase_antitone {t1 t2 : ℚ} (h : t1 ≤ t2) :
    _tbase_formula (some t2) ≤ _tbase_formula (some t1) := by
  unfold _tbase_formula
  have hf : Int.floor ((t1 - 25) / 4) ≤ Int.floor ((t2 - 25) / 4) :=
    Int.floor_le_floor (by linarith)
  have hf' : ((Int.floor ((t1 - 25) / 4) : ℤ) : ℚ) ≤
      ((Int.floor ((t2 - 25) / 4) : ℤ) : ℚ) := by exact_mod_cast hf
  have : ((25 : ℚ) - (Int.floor ((t2 - 25) / 4) : ℤ)) ≤
      ((25 : ℚ) - (Int.floor ((t1 - 25) / 4) : ℤ)) := by linarith
  exact max_le_max le_rfl (min_le_min le_rfl this)

theorem setpoint_to_level_antitone {s1 s2 : ℚ} (h : s1 ≤ s2) :
    _setpoint_to_level s2 ≤ _setpoint_to_level s1 := by
  unfold _setpoint_to_level
  apply clamp_level_mono
  have := pyRound_mono (a := (s1 - 22) / 3 * 9) (b := (s2 - 22) / 3 * 9)
    (by linarith)
  omega

theorem compute_units_on_single (s : String) {p : Int} (hp : 1 ≤ p) :
    _compute_units_on s 1 p = 1 := by
  unfold _compute_units_on
  have : ¬ p ≤ 0 := by omega
  simp only [this, if_false]
  omega

/-- Splitting `optimize_room` results: a successful run is the per-appliance
map of the branch that applies. -/
theorem optimize_room_ok_empty {room : Room} {occupancy : Occupancy}
    {appliances : List Appliance} {t : Option ℚ} {sa : SeatingArea}
    {states : List ApplianceState}
    (h : optimize_room room occupancy appliances t sa = .ok states)
    (hp : occupancy.people_count = 0) :
    states = appliances.map (_empty_room_state t) := by
  unfold optimize_room at h
  rcases hv : _validate_inputs room occupancy appliances sa with _ | e <;>
    rw [hv] at h
  · by_cases hc : room.max_capacity ≤ 0
    · rw [if_pos hc] at h; cases h
    · rw [if_neg hc, if_pos hp] at h
      exact (Except.ok.inj h).symm
  · cases h

theorem optimize_room_ok_occupied {room : Room} {occupancy : Occupancy}
    {appliances : List Appliance} {t : Option ℚ} {sa : SeatingArea}
    {states : List ApplianceState}
    (h : optimize_room room occupancy appliances t sa = .ok states)
    (hp : occupancy.people_count ≠ 0) :
    states = appliances.map
      (_occupied_state occupancy.people_count
        (min 1 ((occupancy.people_count : ℚ) / (room.max_capacity : ℚ))) t) := by
  unfold optimize_room at h
  rcases hv : _validate_inputs room occupancy appliances sa with _ | e <;>
    rw [hv] at h
  · by_cases hc : room.max_capacity ≤ 0
    · rw [if_pos hc] at h; cases h
    · rw [if_neg hc, if_neg hp] at h
      exact (Except.ok.inj h).symm
  · cases h

/-! ### Characterizing the per-appliance decision -/

theorem decide_off_low_light_fan {appliance : Appliance} {people : Int}
    {lf : ℚ} (h1 : people < 1)
    (h2 : upperAscii appliance.appliance_type = "LIGHT" ∨
      upperAscii appliance.appliance_type = "FAN") :
    _decide_appliance_state appliance people lf = (false, none, 0) := by
  unfold _decide_appliance_state
  rw [if_pos ⟨h1, h2⟩]

theorem decide_off_low_ac {appliance : Appliance} {people : Int} {lf : ℚ}
    (h1 : people < 2) (h2 : upperAscii appliance.appliance_type = "AC") :
    _decide_appliance_state appliance people lf = (false, none, 0) := by
  unfold _decide_appliance_state
  have hc1 : ¬ (people < 1 ∧ (upperAscii appliance.appliance_type = "LIGHT" ∨
      upperAscii appliance.appliance_type = "FAN")) := by
    simp [h2]
  rw [if_neg hc1, if_pos ⟨h1, h2⟩]

theorem decide_run_nonadjustable {appliance : Appliance} {people : Int}
    {lf : ℚ}
    (hc1 : ¬ (people < 1 ∧ (upperAscii appliance.appliance_type = "LIGHT" ∨
      upperAscii appliance.appliance_type = "FAN")))
    (hc2 : ¬ (people < 2 ∧ upperAscii appliance.appliance_type = "AC"))
    (hadj : appliance.adjustable = false) :
    _decide_appliance_state appliance people lf =
      (true, none, _compute_units_on (upperAscii appliance.appliance_type)
        appliance.number_of_appliances people) := by
  unfold _decide_appliance_state
  rw [if_neg hc1, if_neg hc2, if_pos (by simp [hadj])]

theorem decide_run_adjustable {appliance : Appliance} {people : Int} {lf : ℚ}
    (hc1 : ¬ (people < 1 ∧ (upperAscii appliance.appliance_type = "LIGHT" ∨
      upperAscii appliance.appliance_type = "FAN")))
    (hc2 : ¬ (people < 2 ∧ upperAscii appliance.appliance_type = "AC"))
    (hadj : appliance.adjustable = true) :
    _decide_appliance_state appliance people lf =
      (true,
       some (_clamp_level (pyRound
         ((if _compute_units_on (upperAscii appliance.appliance_type)
              appliance.number_of_appliances people ≠ 0 then
            min 1 ((people : ℚ) /
              ((_compute_units_on (upperAscii appliance.appliance_type)
                  appliance.number_of_appliances people : ℚ) *
                (PEOPLE_PER_UNIT (upperAscii appliance.appliance_type) : ℚ)))
          else 0) * 10))),
       _compute_units_on (upperAscii appliance.appliance_type)
         appliance.number_of_appliances people) := by
  unfold _decide_appliance_state
  rw [if_neg hc1, if_neg hc2, if_neg (by simp [hadj])]

/-! ### Characterizing the per-appliance output states -/

theorem empty_room_state_ac {t : Option ℚ} {appliance : Appliance}
    (hac : upperAscii appliance.appliance_type = "AC") :
    _empty_room_state t appliance =
      { appliance_id := appliance.appliance_id
        appliance_type := appliance.appliance_type
        status := "ON"
        level := some (_setpoint_to_level (_tbase_formula t))
        setpoint_c := some (_tbase_formula t)
        estimated_power_watts :=
          _estimate_power appliance
            (some (_setpoint_to_level (_tbase_formula t))) 1 } := by
  unfold _empty_room_state
  rw [if_pos hac]

theorem empty_room_state_non_ac {t : Option ℚ} {appliance : Appliance}
    (hac : ¬ upperAscii appliance.appliance_type = "AC") :
    _empty_room_state t appliance =
      { appliance_id := appliance.appliance_id
        appliance_type := appliance.appliance_type
        status := "OFF"
        level := none
        setpoint_c := none
        estimated_power_watts := 0 } := by
  unfold _empty_room_state
  rw [if_neg hac]

theorem occupied_state_off {people : Int} {lf : ℚ} {t : Option ℚ}
    {appliance : Appliance}
    (h : _decide_appliance_state appliance people lf = (false, none, 0)) :
    _occupied_state people lf t appliance =
      { appliance_id := appliance.appliance_id
        appliance_type := appliance.appliance_type
        status := "OFF"
        level := none
        setpoint_c := none
        estimated_power_watts := 0 } := by
  unfold _occupied_state
  rw [h]
  rfl

theorem occupied_state_on_nonadjustable {people : Int} {lf : ℚ}
    {t : Option ℚ} {appliance : Appliance} {u : Int}
    (h : _decide_appliance_state appliance people lf = (true, none, u)) :
    _occupied_state people lf t appliance =
      { appliance_id := appliance.appliance_id
        appliance_type := appliance.appliance_type
        status := "ON"
        level := none
        setpoint_c := if upperAscii appliance.appliance_type = "AC" then
          some (_tbase_formula t) else none
        estimated_power_watts := _estimate_power appliance none u } := by
  unfold _occupied_state
  rw [h]
  rfl

theorem occupied_state_on_adjustable {people : Int} {lf : ℚ} {t : Option ℚ}
    {appliance : Appliance} {l u : Int}
    (h : _decide_appliance_state appliance people lf = (true, some l, u)) :
    _occupied_state people lf t appliance =
      { appliance_id := appliance.appliance_id
        appliance_type := appliance.appliance_type
        status := "ON"
        level := some (_apply_temperature_bias l t)
        setpoint_c := if upperAscii appliance.appliance_type = "AC" then
          some (_tbase_formula t) else none
        estimated_power_watts :=
          _estimate_power appliance (some (_apply_temperature_bias l t)) u } := by
  unfold _occupied_state
  rw [h]
  rfl

/-! ### Claim C5: the setpoint table -/

/-- Claim C5, counterexample: the claimed table says 24°C for
`28 < T_out <= 32`, but at `T_out = 28.5` the formula
`25 - floor((28.5 - 25) / 4) = 25 - 0 = 25` returns 25°C. -/
theorem C5_counterexample :
    ((28 : ℚ) < 57 / 2 ∧ (57 / 2 : ℚ) ≤ 32) ∧
      _tbase_formula (some (57 / 2)) ≠ 24 := by
  have hval : _tbase_formula (some (57 / 2)) = 25 := by
    norm_num [_tbase_formula]
  refine ⟨⟨by norm_num, by norm_num⟩, ?_⟩
  rw [hval]; norm_num

/-- Claim C5 as amended: the step boundaries of the setpoint table sit at
29, 33 and 37 (not 28, 32 and 36) for real-valued temperatures: 25°C for
`T_out < 29`, 24°C for `29 <= T_out < 33`, 23°C for `33 <= T_out < 37`,
22°C for `T_out >= 37`; the fallback for an absent temperature is 24°C. -/
theorem C5_amended (t : ℚ) :
    (t < 29 → _tbase_formula (some t) = 25) ∧
    (29 ≤ t → t < 33 → _tbase_formula (some t) = 24) ∧
    (33 ≤ t → t < 37 → _tbase_formula (some t) = 23) ∧
    (37 ≤ t → _tbase_formula (some t) = 22) ∧
    _tbase_formula none = 24 := by
  refine ⟨?_, ?_, ?_, ?_, rfl⟩
  · intro h
    have hf : Int.floor ((t - 25) / 4) < 1 := by
      rw [Int.floor_lt]; push_cast; linarith
    have hcast : ((Int.floor ((t - 25) / 4) : ℤ) : ℚ) ≤ 0 := by
      exact_mod_cast (by omega : Int.floor ((t - 25) / 4) ≤ 0)
    simp only [_tbase_formula]
    rw [min_eq_left (by linarith), max_eq_right (by norm_num)]
  · intro h1 h2
    have hf : Int.floor ((t - 25) / 4) = 1 := by
      rw [Int.floor_eq_iff]
      constructor <;> [skip; skip] <;> push_cast <;> linarith
    simp only [_tbase_formula]
    rw [hf]; norm_num
  · intro h1 h2
    have hf : Int.floor ((t - 25) / 4) = 2 := by
      rw [Int.floor_eq_iff]
      constructor <;> [skip; skip] <;> push_cast <;> linarith
    simp only [_tbase_formula]
    rw [hf]; norm_num
  · intro h
    have hf : (3 : ℤ) ≤ Int.floor ((t - 25) / 4) := by
      rw [Int.le_floor]; push_cast; linarith
    have hcast : (3 : ℚ) ≤ ((Int.floor ((t - 25) / 4) : ℤ) : ℚ) := by
      exact_mod_cast hf
    simp only [_tbase_formula]
    rw [min_eq_right (by linarith), max_eq_left (by linarith)]

/-- Witness for C5 as amended, at `T_out = 30`. -/
theorem C5_witness :
    (29 : ℚ) ≤ 30 ∧ (30 : ℚ) < 33 ∧ _tbase_formula (some 30) = 24 :=
  ⟨by norm_num, by norm_num, (C5_amended 30).2.1 (by norm_num) (by norm_num)⟩

/-! ### Claim C3: validation -/

theorem firstApplianceMismatch_eq_none {appliances : List Appliance}
    {sa : SeatingArea} :
    firstApplianceMismatch appliances sa = none ↔
      ∀ a ∈ appliances, a.room_id = sa.room_id := by
  induction appliances with
  | nil => simp [firstApplianceMismatch]
  | cons x rest ih =>
    unfold firstApplianceMismatch
    by_cases hx : x.room_id ≠ sa.room_id
    · rw [if_pos hx]
      constructor
      · intro h; exact absurd h (Option.some_ne_none _)
      · intro h; exact absurd (h x (List.mem_cons_self x rest)) hx
    · rw [if_neg hx]
      push_neg at hx
      simp [List.forall_mem_cons, hx, ih]

/-- Claim C3, counterexample: room, occupancy and the single appliance all
share `room_id = 2`, yet `optimize_room` (with its hardcoded `MTA_1` seating
area) raises a validation error naming the room, because validation compares
against the seating area id 1, not against `room.room_id`. -/
theorem C3_counterexample :
    optimize_room ⟨2, 20⟩ ⟨2, 5⟩ [⟨1, 2, "AC", 2000, true, 2⟩] none MTA_1 =
      .error (.roomMismatch 2 1) := by
  rfl

/-- Claim C3 as amended: validation succeeds exactly when the room, the
occupancy and every appliance carry the seating area's `room_id`
(`MTA_1.room_id = 1` for the default); the first mismatch is reported,
checking the room first, then the occupancy, then the appliances in order,
and the error names the offending record's ids.  When everything matches and
the capacity is positive, `optimize_room` returns a result list. -/
theorem C3_amended (room : Room) (occupancy : Occupancy)
    (appliances : List Appliance) (t : Option ℚ) (sa : SeatingArea) :
    (room.room_id ≠ sa.room_id →
      _validate_inputs room occupancy appliances sa =
        some (.roomMismatch room.room_id sa.room_id)) ∧
    (room.room_id = sa.room_id → occupancy.room_id ≠ sa.room_id →
      _validate_inputs room occupancy appliances sa =
        some (.occupancyMismatch occupancy.room_id sa.room_id)) ∧
    (_validate_inputs room occupancy appliances sa = none ↔
      room.room_id = sa.room_id ∧ occupancy.room_id = sa.room_id ∧
        ∀ a ∈ appliances, a.room_id = sa.room_id) ∧
    (room.room_id = sa.room_id → occupancy.room_id = sa.room_id →
      (∀ a ∈ appliances, a.room_id = sa.room_id) → 0 < room.max_capacity →
      ∃ states, optimize_room room occupancy appliances t sa = .ok states) := by
  have hval : _validate_inputs room occupancy appliances sa = none ↔
      room.room_id = sa.room_id ∧ occupancy.room_id = sa.room_id ∧
        ∀ a ∈ appliances, a.room_id = sa.room_id := by
    unfold _validate_inputs
    by_cases h1 : room.room_id ≠ sa.room_id
    · rw [if_pos h1]; simp [h1]
    · rw [if_neg h1]
      push_neg at h1
      by_cases h2 : occupancy.room_id ≠ sa.room_id
      · rw [if_pos h2]; simp [h1, h2]
      · rw [if_neg h2]
        push_neg at h2
        simp [h1, h2, firstApplianceMismatch_eq_none]
  refine ⟨?_, ?_, hval, ?_⟩
  · intro h
    unfold _validate_inputs
    rw [if_pos h]
  · intro h1 h2
    unfold _validate_inputs
    rw [if_neg (not_not_intro h1), if_pos h2]
  · intro h1 h2 h3 h4
    have hv : _validate_inputs room occupancy appliances sa = none :=
      hval.mpr ⟨h1, h2, h3⟩
    unfold optimize_room
    rw [hv]
    rw [if_neg (by omega)]
    by_cases hp : occupancy.people_count = 0
    · rw [if_pos hp]; exact ⟨_, rfl⟩
    · rw [if_neg hp]; exact ⟨_, rfl⟩

/-- Witness for C3 as amended: a fully matching input yields a result. -/
theorem C3_witness :
    ∃ states, optimize_room ⟨1, 20⟩ ⟨1, 3⟩ [⟨1, 1, "FAN", 75, true, 4⟩]
      none MTA_1 = .ok states :=
  (C3_amended ⟨1, 20⟩ ⟨1, 3⟩ [⟨1, 1, "FAN", 75, true, 4⟩] none MTA_1).2.2.2
    rfl rfl (by simp [MTA_1]) (by norm_num)

/-! ### Claim C4: negative occupant count -/

/-- Claim C4 (code bug): the engine performs no negative-occupancy check.
With `people_count = -5` (on the test suite's own fixture) `optimize_room`
raises no error at all: it returns a full recommendation list with every
appliance OFF.  The repository's test suite asserts that this very input
raises a `ValueError`, so the code contradicts its own tests. -/
theorem C4_code_behavior :
    optimize_room ⟨1, 20⟩ ⟨1, -5⟩
      [⟨1, 1, "AC", 2000, true, 2⟩, ⟨2, 1, "FAN", 75, true, 4⟩,
       ⟨3, 1, "LIGHT", 40, false, 6⟩] none MTA_1 =
    .ok [⟨1, "AC", "OFF", none, none, 0⟩, ⟨2, "FAN", "OFF", none, none, 0⟩,
       ⟨3, "LIGHT", "OFF", none, none, 0⟩] := by
  rfl

/-! ### Claim C10: empty-room AC power uses exactly one unit -/

theorem upperAscii_AC : upperAscii "AC" = "AC" := by decide

theorem upperAscii_FAN : upperAscii "FAN" = "FAN" := by decide

theorem upperAscii_LIGHT : upperAscii "LIGHT" = "LIGHT" := by decide

theorem empty_room_state_units_irrelevant (t : Option ℚ) (a : Appliance)
    (n : Int) :
    _empty_room_state t { a with number_of_appliances := n } =
      _empty_room_state t a := rfl

/-- Claim C10: in the empty-room branch the AC power estimate is computed
with `units_on = 1`, hence is independent of `number_of_appliances`: runs
that differ only in the declared unit count produce identical AC states. -/
theorem C10_confirmed (room : Room) (occupancy : Occupancy) (a : Appliance)
    (t : Option ℚ) (sa : SeatingArea) (n1 n2 : Int) (s1 s2 : ApplianceState)
    (hac : upperAscii a.appliance_type = "AC")
    (hp : occupancy.people_count = 0)
    (h1 : optimize_room room occupancy [{ a with number_of_appliances := n1 }]
      t sa = .ok [s1])
    (h2 : optimize_room room occupancy [{ a with number_of_appliances := n2 }]
      t sa = .ok [s2]) :
    s1.estimated_power_watts =
      _estimate_power a (some (_setpoint_to_level (_tbase_formula t))) 1 ∧
    s1 = s2 := by
  have e1 := optimize_room_ok_empty h1 hp
  have e2 := optimize_room_ok_empty h2 hp
  simp only [List.map_cons, List.map_nil] at e1 e2
  have hs1 : s1 = _empty_room_state t { a with number_of_appliances := n1 } :=
    (List.cons.inj e1).1
  have hs2 : s2 = _empty_room_state t { a with number_of_appliances := n2 } :=
    (List.cons.inj e2).1
  rw [hs1, hs2, empty_room_state_units_irrelevant,
    empty_room_state_units_irrelevant]
  refine ⟨?_, rfl⟩
  rw [empty_room_state_ac hac]

/-- Witness for C10 on the test fixture AC (2000 W, adjustable), with unit
counts 2 and 5: both runs give the documented 800 W single-unit state. -/
theorem C10_witness :
    ((⟨1, "AC", "ON", some 4, some 24, 800⟩ : ApplianceState).estimated_power_watts =
      _estimate_power ⟨1, 1, "AC", 2000, true, 1⟩
        (some (_setpoint_to_level (_tbase_formula none))) 1) ∧
    (⟨1, "AC", "ON", some 4, some 24, 800⟩ : ApplianceState) =
      (⟨1, "AC", "ON", some 4, some 24, 800⟩ : ApplianceState) :=
  C10_confirmed ⟨1, 20⟩ ⟨1, 0⟩ ⟨1, 1, "AC", 2000, true, 1⟩ none MTA_1 2 5 _ _
    upperAscii_AC rfl
    (by norm_num [optimize_room, _validate_inputs, firstApplianceMismatch,
      MTA_1, _empty_room_state, upperAscii_AC, _tbase_formula,
      AC_SETPOINT_FALLBACK_C, _setpoint_to_level, _clamp_level, pyRound,
      pyInt, _estimate_power])
    (by norm_num [optimize_room, _validate_inputs, firstApplianceMismatch,
      MTA_1, _empty_room_state, upperAscii_AC, _tbase_formula,
      AC_SETPOINT_FALLBACK_C, _setpoint_to_level, _clamp_level, pyRound,
      pyInt, _estimate_power])

/-! ### Indexed access to the output list -/

theorem states_get_of_ok_empty {room : Room} {occupancy : Occupancy}
    {appliances : List Appliance} {t : Option ℚ} {sa : SeatingArea}
    {states : List ApplianceState}
    (h : optimize_room room occupancy appliances t sa = .ok states)
    (hp : occupancy.people_count = 0) (i : ℕ) (hi : i < appliances.length)
    (hs : i < states.length) :
    states.get ⟨i, hs⟩ = _empty_room_state t (appliances.get ⟨i, hi⟩) := by
  have e := optimize_room_ok_empty h hp
  subst e
  simp [List.get_eq_getElem, List.getElem_map]

theorem states_get_of_ok_occupied {room : Room} {occupancy : Occupancy}
    {appliances : List Appliance} {t : Option ℚ} {sa : SeatingArea}
    {states : List ApplianceState}
    (h : optimize_room room occupancy appliances t sa = .ok states)
    (hp : occupancy.people_count ≠ 0) (i : ℕ) (hi : i < appliances.length)
    (hs : i < states.length) :
    states.get ⟨i, hs⟩ =
      _occupied_state occupancy.people_count
        (min 1 ((occupancy.people_count : ℚ) / (room.max_capacity : ℚ))) t
        (appliances.get ⟨i, hi⟩) := by
  have e := optimize_room_ok_occupied h hp
  subst e
  simp [List.get_eq_getElem, List.getElem_map]

/-! ### Forward evaluation of optimize_room -/

theorem optimize_room_empty_eq {room : Room} {occupancy : Occupancy}
    {appliances : List Appliance} {t : Option ℚ} {sa : SeatingArea}
    (hv : _validate_inputs room occupancy appliances sa = none)
    (hc : ¬ room.max_capacity ≤ 0) (hp : occupancy.people_count = 0) :
    optimize_room room occupancy appliances t sa =
      .ok (appliances.map (_empty_room_state t)) := by
  unfold optimize_room
  rw [hv, if_neg hc, if_pos hp]

theorem optimize_room_occupied_eq {room : Room} {occupancy : Occupancy}
    {appliances : List Appliance} {t : Option ℚ} {sa : SeatingArea}
    (hv : _validate_inputs room occupancy appliances sa = none)
    (hc : ¬ room.max_capacity ≤ 0) (hp : occupancy.people_count ≠ 0) :
    optimize_room room occupancy appliances t sa =
      .ok (appliances.map
        (_occupied_state occupancy.people_count
          (min 1 ((occupancy.people_count : ℚ) / (room.max_capacity : ℚ))) t)) := by
  unfold optimize_room
  rw [hv, if_neg hc, if_neg hp]

/-! ### Claim C2: activation thresholds -/

/-- Claim C2, counterexample: the claim says an AC appliance's status is OFF
whenever `people_count` is 0 or 1, but at `people_count = 0` the base-load
branch turns the AC ON (level 4, setpoint 24°C, 800 W). -/
theorem C2_counterexample :
    optimize_room ⟨1, 20⟩ ⟨1, 0⟩ [⟨1, 1, "AC", 2000, true, 2⟩] none MTA_1 =
      .ok [⟨1, "AC", "ON", some 4, some 24, 800⟩] ∧ ("ON" : String) ≠ "OFF" := by
  constructor
  · norm_num [optimize_room, _validate_inputs, firstApplianceMismatch,
      MTA_1, _empty_room_state, upperAscii_AC, _tbase_formula,
      AC_SETPOINT_FALLBACK_C, _setpoint_to_level, _clamp_level, pyRound,
      pyInt, _estimate_power]
  · decide

/-- Claim C2 as amended: an AC appliance is OFF at `people_count = 1` and ON
in the base-load branch at `people_count = 0`; when ON, either the room is
empty (base load) or `people_count >= 2`.  FAN and LIGHT are OFF at
`people_count = 0` and are ON only when `people_count >= 1`. -/
theorem C2_amended (room : Room) (occupancy : Occupancy)
    (appliances : List Appliance) (t : Option ℚ) (sa : SeatingArea)
    (states : List ApplianceState)
    (h : optimize_room room occupancy appliances t sa = .ok states)
    (i : ℕ) (hi : i < appliances.length) (hs : i < states.length) :
    (upperAscii (appliances.get ⟨i, hi⟩).appliance_type = "AC" →
      occupancy.people_count = 1 → (states.get ⟨i, hs⟩).status = "OFF") ∧
    (upperAscii (appliances.get ⟨i, hi⟩).appliance_type = "AC" →
      (states.get ⟨i, hs⟩).status = "ON" →
      occupancy.people_count = 0 ∨ 2 ≤ occupancy.people_count) ∧
    (upperAscii (appliances.get ⟨i, hi⟩).appliance_type = "FAN" ∨
        upperAscii (appliances.get ⟨i, hi⟩).appliance_type = "LIGHT" →
      occupancy.people_count = 0 → (states.get ⟨i, hs⟩).status = "OFF") ∧
    (upperAscii (appliances.get ⟨i, hi⟩).appliance_type = "FAN" ∨
        upperAscii (appliances.get ⟨i, hi⟩).appliance_type = "LIGHT" →
      (states.get ⟨i, hs⟩).status = "ON" → 1 ≤ occupancy.people_count) ∧
    (upperAscii (appliances.get ⟨i, hi⟩).appliance_type = "AC" →
      occupancy.people_count = 0 → (states.get ⟨i, hs⟩).status = "ON") := by
  by_cases hp : occupancy.people_count = 0
  · have hg := states_get_of_ok_empty h hp i hi hs
    refine ⟨?_, ?_, ?_, ?_, ?_⟩
    · intro _ h1; exact absurd h1 (by omega)
    · intro _ _; exact Or.inl hp
    · intro hty _
      have hne : ¬ upperAscii (appliances.get ⟨i, hi⟩).appliance_type = "AC" := by
        rcases hty with hty | hty <;> rw [hty] <;> decide
      rw [hg, empty_room_state_non_ac hne]
    · intro hty hon
      have hne : ¬ upperAscii (appliances.get ⟨i, hi⟩).appliance_type = "AC" := by
        rcases hty with hty | hty <;> rw [hty] <;> decide
      rw [hg, empty_room_state_non_ac hne] at hon
      simp at hon
    · intro hac _
      rw [hg, empty_room_state_ac hac]
  · have hg := states_get_of_ok_occupied h hp i hi hs
    refine ⟨?_, ?_, ?_, ?_, ?_⟩
    · intro hac h1
      rw [hg, occupied_state_off (decide_off_low_ac (by omega) hac)]
    · intro hac hon
      by_contra hcon
      push_neg at hcon
      rw [hg, occupied_state_off (decide_off_low_ac (by omega) hac)] at hon
      simp at hon
    · intro _ h0; exact absurd h0 hp
    · intro hty hon
      by_contra hcon
      push_neg at hcon
      rw [hg, occupied_state_off
        (decide_off_low_light_fan (by omega) hty.symm)] at hon
      simp at hon
    · intro _ h0; exact absurd h0 hp

/-- Witness for C2 as amended: with one occupant the test-fixture AC is
reported OFF. -/
theorem C2_witness :
    ([(⟨1, "AC", "OFF", none, none, 0⟩ : ApplianceState)].get
      ⟨0, by norm_num⟩).status = "OFF" :=
  (C2_amended ⟨1, 20⟩ ⟨1, 1⟩ [⟨1, 1, "AC", 2000, true, 2⟩] none MTA_1 _
    (by norm_num [optimize_room, _validate_inputs, firstApplianceMismatch,
      MTA_1, _occupied_state, _decide_appliance_state, upperAscii_AC])
    0 (by norm_num) (by norm_num)).1 upperAscii_AC rfl

/-! ### Claim C8: when a level is present -/

theorem decide_shape (appliance : Appliance) (people : Int) (lf : ℚ) :
    _decide_appliance_state appliance people lf = (false, none, 0) ∨
    (∃ u, _decide_appliance_state appliance people lf = (true, none, u) ∧
      appliance.adjustable = false) ∨
    (∃ l u, _decide_appliance_state appliance people lf = (true, some l, u) ∧
      appliance.adjustable = true ∧ 1 ≤ l ∧ l ≤ 10) := by
  by_cases h1 : people < 1 ∧ (upperAscii appliance.appliance_type = "LIGHT" ∨
      upperAscii appliance.appliance_type = "FAN")
  · exact Or.inl (decide_off_low_light_fan h1.1 h1.2)
  by_cases h2 : people < 2 ∧ upperAscii appliance.appliance_type = "AC"
  · exact Or.inl (decide_off_low_ac h2.1 h2.2)
  cases hadj : appliance.adjustable with
  | false =>
    exact Or.inr (Or.inl ⟨_, decide_run_nonadjustable h1 h2 hadj, rfl⟩)
  | true =>
    exact Or.inr (Or.inr ⟨_, _, decide_run_adjustable h1 h2 hadj, rfl,
      one_le_clamp_level _, clamp_level_le_ten _⟩)

/-- Claim C8, counterexample: in the empty-room branch a NON-adjustable AC
still receives `level = some 4` — the claim says non-adjustable appliances
always have `level = None`. -/
theorem C8_counterexample :
    optimize_room ⟨1, 20⟩ ⟨1, 0⟩ [⟨1, 1, "AC", 2000, false, 2⟩] none MTA_1 =
      .ok [⟨1, "AC", "ON", some 4, some 24, 2000⟩] ∧
    (⟨1, 1, "AC", 2000, false, 2⟩ : Appliance).adjustable = false ∧
    some (4 : Int) ≠ none := by
  refine ⟨?_, rfl, by simp⟩
  norm_num [optimize_room, _validate_inputs, firstApplianceMismatch,
    MTA_1, _empty_room_state, upperAscii_AC, _tbase_formula,
    AC_SETPOINT_FALLBACK_C, _setpoint_to_level, _clamp_level, pyRound,
    pyInt, _estimate_power]

/-- Claim C8 as amended: a state carries a level only when its status is ON
and the appliance is either adjustable or an AC in the empty-room branch;
in the occupied branch non-adjustable appliances always have `level = None`. -/
theorem C8_amended (room : Room) (occupancy : Occupancy)
    (appliances : List Appliance) (t : Option ℚ) (sa : SeatingArea)
    (states : List ApplianceState)
    (h : optimize_room room occupancy appliances t sa = .ok states)
    (i : ℕ) (hi : i < appliances.length) (hs : i < states.length) :
    (∀ lv, (states.get ⟨i, hs⟩).level = some lv →
      (states.get ⟨i, hs⟩).status = "ON" ∧
      ((appliances.get ⟨i, hi⟩).adjustable = true ∨
        (upperAscii (appliances.get ⟨i, hi⟩).appliance_type = "AC" ∧
          occupancy.people_count = 0))) ∧
    (occupancy.people_count ≠ 0 →
      (appliances.get ⟨i, hi⟩).adjustable = false →
      (states.get ⟨i, hs⟩).level = none) := by
  by_cases hp : occupancy.people_count = 0
  · have hg := states_get_of_ok_empty h hp i hi hs
    refine ⟨?_, fun hne _ => absurd hp hne⟩
    intro lv hlv
    by_cases hac : upperAscii (appliances.get ⟨i, hi⟩).appliance_type = "AC"
    · rw [hg, empty_room_state_ac hac]
      exact ⟨rfl, Or.inr ⟨hac, hp⟩⟩
    · rw [hg, empty_room_state_non_ac hac] at hlv
      simp at hlv
  · have hg := states_get_of_ok_occupied h hp i hi hs
    rcases decide_shape (appliances.get ⟨i, hi⟩) occupancy.people_count
        (min 1 ((occupancy.people_count : ℚ) / (room.max_capacity : ℚ)))
      with hd | ⟨u, hd, hadj⟩ | ⟨l, u, hd, hadj, _, _⟩
    · rw [hg, occupied_state_off hd]
      exact ⟨fun lv hlv => by simp at hlv, fun _ _ => rfl⟩
    · rw [hg, occupied_state_on_nonadjustable hd]
      exact ⟨fun lv hlv => by simp at hlv, fun _ _ => rfl⟩
    · rw [hg, occupied_state_on_adjustable hd]
      refine ⟨fun lv _ => ⟨rfl, Or.inl hadj⟩, fun _ hfalse => ?_⟩
      rw [hadj] at hfalse
      cases hfalse

theorem fan_units_one : _compute_units_on "FAN" 4 1 = 1 := by
  unfold _compute_units_on
  rw [if_neg (by norm_num),
    show PEOPLE_PER_UNIT "FAN" = 4 from by decide,
    show (⌈((1 : ℤ) : ℚ) / ((4 : ℤ) : ℚ)⌉ : ℤ) = 1 from by
      rw [Int.ceil_eq_iff]; norm_num]
  decide

theorem fan75_decide (lf : ℚ) :
    _decide_appliance_state ⟨1, 1, "FAN", 75, true, 4⟩ 1 lf =
      (true, some 2, 1) := by
  rw [decide_run_adjustable (by decide) (by decide) rfl]
  simp only [upperAscii_FAN]
  rw [fan_units_one, show PEOPLE_PER_UNIT "FAN" = 4 from by decide]
  norm_num [_clamp_level, pyRound, Int.fract]

theorem fan75_state (lf : ℚ) :
    _occupied_state 1 lf none ⟨1, 1, "FAN", 75, true, 4⟩ =
      ⟨1, "FAN", "ON", some 2, none, 15⟩ := by
  rw [occupied_state_on_adjustable (fan75_decide lf)]
  norm_num [upperAscii_FAN, _apply_temperature_bias, _estimate_power, pyInt]
  exact fun h => absurd h (by decide)

theorem fan75_run :
    optimize_room ⟨1, 20⟩ ⟨1, 1⟩ [⟨1, 1, "FAN", 75, true, 4⟩] none MTA_1 =
      .ok [⟨1, "FAN", "ON", some 2, none, 15⟩] := by
  rw [optimize_room_occupied_eq
    (by norm_num [_validate_inputs, firstApplianceMismatch, MTA_1])
    (by norm_num) (by norm_num)]
  simp only [List.map_cons, List.map_nil]
  rw [fan75_state]

/-- Witness for C8 as amended: an adjustable FAN with one occupant carries a
level and is ON. -/
theorem C8_witness :
    ("ON" : String) = "ON" ∧
    (true = true ∨ (upperAscii "FAN" = "AC" ∧ (1 : Int) = 0)) :=
  (C8_amended ⟨1, 20⟩ ⟨1, 1⟩ [⟨1, 1, "FAN", 75, true, 4⟩] none MTA_1
    [⟨1, "FAN", "ON", some 2, none, 15⟩] fan75_run
    0 (by norm_num) (by norm_num)).1 2 rfl

/-! ### Claim C6: the power formula -/

theorem fan_units_two : _compute_units_on "FAN" 2 5 = 2 := by
  unfold _compute_units_on
  rw [if_neg (by norm_num),
    show PEOPLE_PER_UNIT "FAN" = 4 from by decide,
    show (⌈((5 : ℤ) : ℚ) / ((4 : ℤ) : ℚ)⌉ : ℤ) = 2 from by
      rw [Int.ceil_eq_iff]; norm_num]
  decide

theorem fan13_decide (lf : ℚ) :
    _decide_appliance_state ⟨1, 1, "FAN", 13, true, 2⟩ 5 lf =
      (true, some 6, 2) := by
  rw [decide_run_adjustable (by decide) (by decide) rfl]
  simp only [upperAscii_FAN]
  rw [fan_units_two, show PEOPLE_PER_UNIT "FAN" = 4 from by decide]
  norm_num [_clamp_level, pyRound, Int.fract]

theorem fan13_state (lf : ℚ) :
    _occupied_state 5 lf none ⟨1, 1, "FAN", 13, true, 2⟩ =
      ⟨1, "FAN", "ON", some 6, none, 15⟩ := by
  rw [occupied_state_on_adjustable (fan13_decide lf)]
  norm_num [upperAscii_FAN, _apply_temperature_bias, _estimate_power, pyInt]
  exact fun h => absurd h (by decide)

/-- Claim C6, counterexample: an adjustable FAN (13 W, 2 units) with five
occupants is ON at level 6 with two energized units; the code reports
`int(13 * (6/10) * 2) = 15` W, while the claimed formula
`floor(13 * 6 / 10) * max(1, 2)` gives 14 W. -/
theorem C6_counterexample :
    optimize_room ⟨1, 20⟩ ⟨1, 5⟩ [⟨1, 1, "FAN", 13, true, 2⟩] none MTA_1 =
      .ok [⟨1, "FAN", "ON", some 6, none, 15⟩] ∧
    Int.floor ((13 * 6 : ℚ) / 10) * max 1 2 = 14 ∧ (15 : Int) ≠ 14 := by
  refine ⟨?_, by norm_num, by norm_num⟩
  rw [optimize_room_occupied_eq
    (by norm_num [_validate_inputs, firstApplianceMismatch, MTA_1])
    (by norm_num) (by norm_num)]
  simp only [List.map_cons, List.map_nil]
  rw [fan13_state]

/-- Claim C6 as amended: for an adjustable appliance with a (necessarily
nonzero) level the power is `floor(max_power_watts * level * units / 10)` —
the truncation is applied to the whole product, after multiplying by the
unit count, not before; the non-adjustable and no-level cases are
`max_power_watts * units` as claimed. -/
theorem C6_amended (a : Appliance) (lv u : Int)
    (hmp : 0 ≤ a.max_power_watts) (hlv : 1 ≤ lv) :
    (a.adjustable = true →
      _estimate_power a (some lv) u =
        Int.floor (((a.max_power_watts : ℚ) * (lv : ℚ) *
          ((max 1 u : Int) : ℚ)) / 10)) ∧
    (a.adjustable = false →
      _estimate_power a (some lv) u = a.max_power_watts * max 1 u) ∧
    _estimate_power a none u = a.max_power_watts * max 1 u := by
  refine ⟨?_, ?_, rfl⟩
  · intro hadj
    have h1 : (0 : ℚ) ≤ (a.max_power_watts : ℚ) := by exact_mod_cast hmp
    have h2 : (1 : ℚ) ≤ (lv : ℚ) := by exact_mod_cast hlv
    have h3 : (1 : ℚ) ≤ ((max 1 u : Int) : ℚ) := by
      exact_mod_cast (le_max_left 1 u : (1 : Int) ≤ max 1 u)
    have hq : (0 : ℚ) ≤ (a.max_power_watts : ℚ) * ((lv : ℚ) / 10) *
        ((max 1 u : Int) : ℚ) := by
      apply mul_nonneg (mul_nonneg h1 (by linarith)) (by linarith)
    show (if a.adjustable = true ∧ lv ≠ 0 then
        pyInt ((a.max_power_watts : ℚ) * ((lv : ℚ) / 10) *
          ((max 1 u : Int) : ℚ))
      else a.max_power_watts * max 1 u) = _
    rw [if_pos ⟨hadj, by omega⟩]
    unfold pyInt
    rw [if_pos hq]
    congr 1
    ring
  · intro hadj
    show (if a.adjustable = true ∧ lv ≠ 0 then
        pyInt ((a.max_power_watts : ℚ) * ((lv : ℚ) / 10) *
          ((max 1 u : Int) : ℚ))
      else a.max_power_watts * max 1 u) = _
    rw [if_neg (by simp [hadj])]

/-- Witness for C6 as amended, on the counterexample appliance: the corrected
formula gives the 15 W the code computes. -/
theorem C6_witness :
    (_estimate_power ⟨1, 1, "FAN", 13, true, 2⟩ (some 6) 2 =
      Int.floor ((((⟨1, 1, "FAN", 13, true, 2⟩ : Appliance).max_power_watts : ℚ) *
        ((6 : Int) : ℚ) * ((max 1 2 : Int) : ℚ)) / 10)) ∧
    Int.floor ((((13 : Int) : ℚ) * ((6 : Int) : ℚ) *
      ((max 1 2 : Int) : ℚ)) / 10) = 15 :=
  ⟨(C6_amended ⟨1, 1, "FAN", 13, true, 2⟩ 6 2 (by norm_num) (by norm_num)).1
    rfl, by norm_num⟩

/-! ### Claim C7: power sign invariant -/

theorem one_le_setpoint_to_level (s : ℚ) : 1 ≤ _setpoint_to_level s :=
  one_le_clamp_level _

theorem estimate_power_none_pos {a : Appliance} (hmp : 0 < a.max_power_watts)
    (u : Int) : 0 < _estimate_power a none u := by
  show 0 < a.max_power_watts * max 1 u
  exact mul_pos hmp (by omega)

theorem estimate_power_some_nonneg {a : Appliance} {lv : Int}
    (hmp : 0 ≤ a.max_power_watts) (hlv : 1 ≤ lv) (u : Int) :
    0 ≤ _estimate_power a (some lv) u := by
  show 0 ≤ (if a.adjustable = true ∧ lv ≠ 0 then
      pyInt ((a.max_power_watts : ℚ) * ((lv : ℚ) / 10) * ((max 1 u : Int) : ℚ))
    else a.max_power_watts * max 1 u)
  split_ifs with hc
  · have h1 : (0 : ℚ) ≤ (a.max_power_watts : ℚ) := by exact_mod_cast hmp
    have h2 : (1 : ℚ) ≤ (lv : ℚ) := by exact_mod_cast hlv
    have h3 : (1 : ℚ) ≤ ((max 1 u : Int) : ℚ) := by
      exact_mod_cast (le_max_left 1 u : (1 : Int) ≤ max 1 u)
    have hq : (0 : ℚ) ≤ (a.max_power_watts : ℚ) * ((lv : ℚ) / 10) *
        ((max 1 u : Int) : ℚ) :=
      mul_nonneg (mul_nonneg h1 (by linarith)) (by linarith)
    unfold pyInt
    rw [if_pos hq]
    exact Int.floor_nonneg.mpr hq
  · exact mul_nonneg hmp (by omega)

theorem estimate_power_some_pos {a : Appliance} {lv : Int}
    (hmp : 10 ≤ a.max_power_watts) (hlv : 1 ≤ lv) (u : Int) :
    1 ≤ _estimate_power a (some lv) u := by
  show 1 ≤ (if a.adjustable = true ∧ lv ≠ 0 then
      pyInt ((a.max_power_watts : ℚ) * ((lv : ℚ) / 10) * ((max 1 u : Int) : ℚ))
    else a.max_power_watts * max 1 u)
  split_ifs with hc
  · have h1 : (10 : ℚ) ≤ (a.max_power_watts : ℚ) := by exact_mod_cast hmp
    have h2 : (1 : ℚ) ≤ (lv : ℚ) := by exact_mod_cast hlv
    have h3 : (1 : ℚ) ≤ ((max 1 u : Int) : ℚ) := by
      exact_mod_cast (le_max_left 1 u : (1 : Int) ≤ max 1 u)
    have hq : (1 : ℚ) ≤ (a.max_power_watts : ℚ) * ((lv : ℚ) / 10) *
        ((max 1 u : Int) : ℚ) := by
      calc (1 : ℚ) = 10 * (1 / 10) * 1 := by norm_num
        _ ≤ (a.max_power_watts : ℚ) * ((lv : ℚ) / 10) *
            ((max 1 u : Int) : ℚ) := by
          gcongr <;> linarith
    unfold pyInt
    rw [if_pos (by linarith)]
    exact Int.le_floor.mpr (by push_cast at hq ⊢; linarith)
  · have h2 : (1 : Int) ≤ max 1 u := le_max_left 1 u
    nlinarith

theorem ac3_units : _compute_units_on "AC" 1 2 = 1 := by
  unfold _compute_units_on
  rw [if_neg (by norm_num),
    show PEOPLE_PER_UNIT "AC" = 6 from by decide,
    show (⌈((2 : ℤ) : ℚ) / ((6 : ℤ) : ℚ)⌉ : ℤ) = 1 from by
      rw [Int.ceil_eq_iff]; norm_num]
  decide

theorem ac3_decide (lf : ℚ) :
    _decide_appliance_state ⟨1, 1, "AC", 3, true, 1⟩ 2 lf =
      (true, some 3, 1) := by
  rw [decide_run_adjustable (by decide) (by decide) rfl]
  simp only [upperAscii_AC]
  rw [ac3_units, show PEOPLE_PER_UNIT "AC" = 6 from by decide]
  norm_num [_clamp_level, pyRound, Int.fract]

theorem ac3_state (lf : ℚ) :
    _occupied_state 2 lf none ⟨1, 1, "AC", 3, true, 1⟩ =
      ⟨1, "AC", "ON", some 3, some 24, 0⟩ := by
  rw [occupied_state_on_adjustable (ac3_decide lf)]
  norm_num [upperAscii_AC, _apply_temperature_bias, _estimate_power, pyInt,
    _tbase_formula, AC_SETPOINT_FALLBACK_C]

/-- Claim C7, counterexample: a 3 W adjustable AC serving two occupants is
reported ON at level 3 yet with `estimated_power_watts = 0`
(`int(3 * 0.3 * 1) = 0`), so power 0 does not imply status OFF even with
positive rated power and a declared unit. -/
theorem C7_counterexample :
    optimize_room ⟨1, 20⟩ ⟨1, 2⟩ [⟨1, 1, "AC", 3, true, 1⟩] none MTA_1 =
      .ok [⟨1, "AC", "ON", some 3, some 24, 0⟩] ∧
    0 < (3 : Int) ∧ 1 ≤ (1 : Int) ∧ ("ON" : String) ≠ "OFF" := by
  refine ⟨?_, by norm_num, by norm_num, by decide⟩
  rw [optimize_room_occupied_eq
    (by norm_num [_validate_inputs, firstApplianceMismatch, MTA_1])
    (by norm_num) (by norm_num)]
  simp only [List.map_cons, List.map_nil]
  rw [ac3_state]

/-- Claim C7 as amended: power is always nonnegative and OFF states draw 0,
but an ON state can draw 0 when the rated power is small; the equivalence
`power = 0 ↔ OFF` holds once `max_power_watts >= 10`. -/
theorem C7_amended (room : Room) (occupancy : Occupancy)
    (appliances : List Appliance) (t : Option ℚ) (sa : SeatingArea)
    (states : List ApplianceState)
    (h : optimize_room room occupancy appliances t sa = .ok states)
    (i : ℕ) (hi : i < appliances.length) (hs : i < states.length)
    (hmp : 0 < (appliances.get ⟨i, hi⟩).max_power_watts) :
    0 ≤ (states.get ⟨i, hs⟩).estimated_power_watts ∧
    ((states.get ⟨i, hs⟩).status = "OFF" →
      (states.get ⟨i, hs⟩).estimated_power_watts = 0) ∧
    (10 ≤ (appliances.get ⟨i, hi⟩).max_power_watts →
      ((states.get ⟨i, hs⟩).estimated_power_watts = 0 ↔
        (states.get ⟨i, hs⟩).status = "OFF")) := by
  by_cases hp : occupancy.people_count = 0
  · have hg := states_get_of_ok_empty h hp i hi hs
    by_cases hac : upperAscii (appliances.get ⟨i, hi⟩).appliance_type = "AC"
    · rw [hg, empty_room_state_ac hac]
      have hml : 1 ≤ _setpoint_to_level (_tbase_formula t) :=
        one_le_setpoint_to_level _
      refine ⟨estimate_power_some_nonneg (le_of_lt hmp) hml 1, ?_, ?_⟩
      · intro hoff; simp at hoff
      · intro hge
        constructor
        · intro h0
          have h0' : _estimate_power (appliances.get ⟨i, hi⟩)
              (some (_setpoint_to_level (_tbase_formula t))) 1 = 0 := h0
          have hpos := estimate_power_some_pos hge hml 1
          omega
        · intro hoff; simp at hoff
    · rw [hg, empty_room_state_non_ac hac]
      exact ⟨le_refl 0, fun _ => rfl, fun _ => ⟨fun _ => rfl, fun _ => rfl⟩⟩
  · have hg := states_get_of_ok_occupied h hp i hi hs
    rcases decide_shape (appliances.get ⟨i, hi⟩) occupancy.people_count
        (min 1 ((occupancy.people_count : ℚ) / (room.max_capacity : ℚ)))
      with hd | ⟨u, hd, hadj⟩ | ⟨l, u, hd, hadj, hl1, hl10⟩
    · rw [hg, occupied_state_off hd]
      exact ⟨le_refl 0, fun _ => rfl, fun _ => ⟨fun _ => rfl, fun _ => rfl⟩⟩
    · rw [hg, occupied_state_on_nonadjustable hd]
      have hpos := estimate_power_none_pos hmp u
      refine ⟨le_of_lt hpos, ?_, ?_⟩
      · intro hoff; simp at hoff
      · intro _
        constructor
        · intro h0
          have h0' : _estimate_power (appliances.get ⟨i, hi⟩) none u = 0 := h0
          omega
        · intro hoff; simp at hoff
    · rw [hg, occupied_state_on_adjustable hd]
      have hbl : 1 ≤ _apply_temperature_bias l t := temperature_bias_lb t hl1
      refine ⟨estimate_power_some_nonneg (le_of_lt hmp) hbl u, ?_, ?_⟩
      · intro hoff; simp at hoff
      · intro hge
        constructor
        · intro h0
          have h0' : _estimate_power (appliances.get ⟨i, hi⟩)
              (some (_apply_temperature_bias l t)) u = 0 := h0
          have hpos := estimate_power_some_pos hge hbl u
          omega
        · intro hoff; simp at hoff

/-- Witness for C7 as amended, on the 75 W FAN run: power 15 is nonnegative
and the `power = 0 ↔ OFF` equivalence holds (`75 >= 10`). -/
theorem C7_witness :
    (0 : Int) ≤ 15 ∧ ((15 : Int) = 0 ↔ ("ON" : String) = "OFF") :=
  ⟨(C7_amended ⟨1, 20⟩ ⟨1, 1⟩ [⟨1, 1, "FAN", 75, true, 4⟩] none MTA_1
      [⟨1, "FAN", "ON", some 2, none, 15⟩] fan75_run 0 (by norm_num)
      (by norm_num) (by norm_num)).1,
   (C7_amended ⟨1, 20⟩ ⟨1, 1⟩ [⟨1, 1, "FAN", 75, true, 4⟩] none MTA_1
      [⟨1, "FAN", "ON", some 2, none, 15⟩] fan75_run 0 (by norm_num)
      (by norm_num) (by norm_num)).2.2 (by norm_num)⟩

/-! ### Claim C9: temperature monotonicity for AC -/

theorem occupied_state_on_nonadjustable_ac {people : Int} {lf : ℚ}
    {t : Option ℚ} {appliance : Appliance} {u : Int}
    (h : _decide_appliance_state appliance people lf = (true, none, u))
    (hac : upperAscii appliance.appliance_type = "AC") :
    _occupied_state people lf t appliance =
      { appliance_id := appliance.appliance_id
        appliance_type := appliance.appliance_type
        status := "ON"
        level := none
        setpoint_c := some (_tbase_formula t)
        estimated_power_watts := _estimate_power appliance none u } := by
  rw [occupied_state_on_nonadjustable h, if_pos hac]

theorem occupied_state_on_adjustable_ac {people : Int} {lf : ℚ}
    {t : Option ℚ} {appliance : Appliance} {l u : Int}
    (h : _decide_appliance_state appliance people lf = (true, some l, u))
    (hac : upperAscii appliance.appliance_type = "AC") :
    _occupied_state people lf t appliance =
      { appliance_id := appliance.appliance_id
        appliance_type := appliance.appliance_type
        status := "ON"
        level := some (_apply_temperature_bias l t)
        setpoint_c := some (_tbase_formula t)
        estimated_power_watts :=
          _estimate_power appliance (some (_apply_temperature_bias l t)) u } := by
  rw [occupied_state_on_adjustable h, if_pos hac]

/-- Claim C9: holding the room, occupancy and appliances fixed, raising the
present outdoor temperature never decreases an emitted AC level and never
increases an emitted AC setpoint, in both the empty-room and occupied
branches. -/
theorem C9_confirmed (room : Room) (occupancy : Occupancy)
    (appliances : List Appliance) (sa : SeatingArea) (t1 t2 : ℚ)
    (ht : t1 ≤ t2) (states1 states2 : List ApplianceState)
    (h1 : optimize_room room occupancy appliances (some t1) sa = .ok states1)
    (h2 : optimize_room room occupancy appliances (some t2) sa = .ok states2)
    (i : ℕ) (hi : i < appliances.length) (hs1 : i < states1.length)
    (hs2 : i < states2.length)
    (hac : upperAscii (appliances.get ⟨i, hi⟩).appliance_type = "AC") :
    (∀ l1 l2, (states1.get ⟨i, hs1⟩).level = some l1 →
      (states2.get ⟨i, hs2⟩).level = some l2 → l1 ≤ l2) ∧
    (∀ sp1 sp2, (states1.get ⟨i, hs1⟩).setpoint_c = some sp1 →
      (states2.get ⟨i, hs2⟩).setpoint_c = some sp2 → sp2 ≤ sp1) := by
  by_cases hp : occupancy.people_count = 0
  · have hg1 := states_get_of_ok_empty h1 hp i hi hs1
    have hg2 := states_get_of_ok_empty h2 hp i hi hs2
    rw [hg1, hg2, empty_room_state_ac hac, empty_room_state_ac hac]
    constructor
    · intro l1 l2 hl1 hl2
      have e1 : _setpoint_to_level (_tbase_formula (some t1)) = l1 :=
        Option.some.inj hl1
      have e2 : _setpoint_to_level (_tbase_formula (some t2)) = l2 :=
        Option.some.inj hl2
      rw [← e1, ← e2]
      exact setpoint_to_level_antitone (tbase_antitone ht)
    · intro sp1 sp2 hsp1 hsp2
      have e1 : _tbase_formula (some t1) = sp1 := Option.some.inj hsp1
      have e2 : _tbase_formula (some t2) = sp2 := Option.some.inj hsp2
      rw [← e1, ← e2]
      exact tbase_antitone ht
  · have hg1 := states_get_of_ok_occupied h1 hp i hi hs1
    have hg2 := states_get_of_ok_occupied h2 hp i hi hs2
    rcases decide_shape (appliances.get ⟨i, hi⟩) occupancy.people_count
        (min 1 ((occupancy.people_count : ℚ) / (room.max_capacity : ℚ)))
      with hd | ⟨u, hd, _⟩ | ⟨l, u, hd, _, _, _⟩
    · rw [hg1, hg2, occupied_state_off hd, occupied_state_off hd]
      constructor
      · intro l1 l2 hl1 _; simp at hl1
      · intro sp1 sp2 hsp1 _; simp at hsp1
    · rw [hg1, hg2, occupied_state_on_nonadjustable_ac hd hac,
        occupied_state_on_nonadjustable_ac hd hac]
      constructor
      · intro l1 l2 hl1 _; simp at hl1
      · intro sp1 sp2 hsp1 hsp2
        have e1 : _tbase_formula (some t1) = sp1 := Option.some.inj hsp1
        have e2 : _tbase_formula (some t2) = sp2 := Option.some.inj hsp2
        rw [← e1, ← e2]
        exact tbase_antitone ht
    · rw [hg1, hg2, occupied_state_on_adjustable_ac hd hac,
        occupied_state_on_adjustable_ac hd hac]
      constructor
      · intro l1 l2 hl1 hl2
        have e1 : _apply_temperature_bias l (some t1) = l1 :=
          Option.some.inj hl1
        have e2 : _apply_temperature_bias l (some t2) = l2 :=
          Option.some.inj hl2
        rw [← e1, ← e2]
        exact temperature_bias_mono_temp l ht
      · intro sp1 sp2 hsp1 hsp2
        have e1 : _tbase_formula (some t1) = sp1 := Option.some.inj hsp1
        have e2 : _tbase_formula (some t2) = sp2 := Option.some.inj hsp2
        rw [← e1, ← e2]
        exact tbase_antitone ht

theorem ac2000_units : _compute_units_on "AC" 2 10 = 2 := by
  unfold _compute_units_on
  rw [if_neg (by norm_num),
    show PEOPLE_PER_UNIT "AC" = 6 from by decide,
    show (⌈((10 : ℤ) : ℚ) / ((6 : ℤ) : ℚ)⌉ : ℤ) = 2 from by
      rw [Int.ceil_eq_iff]; norm_num]
  decide

theorem ac2000_decide (lf : ℚ) :
    _decide_appliance_state ⟨1, 1, "AC", 2000, true, 2⟩ 10 lf =
      (true, some 8, 2) := by
  rw [decide_run_adjustable (by decide) (by decide) rfl]
  simp only [upperAscii_AC]
  rw [ac2000_units, show PEOPLE_PER_UNIT "AC" = 6 from by decide]
  norm_num [_clamp_level, pyRound, Int.fract]

theorem ac2000_state25 (lf : ℚ) :
    _occupied_state 10 lf (some 25) ⟨1, 1, "AC", 2000, true, 2⟩ =
      ⟨1, "AC", "ON", some 8, some 25, 3200⟩ := by
  rw [occupied_state_on_adjustable_ac (ac2000_decide lf) upperAscii_AC]
  norm_num [_apply_temperature_bias, _estimate_power, pyInt, _tbase_formula,
    _clamp_level]

theorem ac2000_state35 (lf : ℚ) :
    _occupied_state 10 lf (some 35) ⟨1, 1, "AC", 2000, true, 2⟩ =
      ⟨1, "AC", "ON", some 10, some 23, 4000⟩ := by
  rw [occupied_state_on_adjustable_ac (ac2000_decide lf) upperAscii_AC]
  norm_num [_apply_temperature_bias, _estimate_power, pyInt, _tbase_formula,
    _clamp_level]

theorem ac2000_run25 :
    optimize_room ⟨1, 20⟩ ⟨1, 10⟩ [⟨1, 1, "AC", 2000, true, 2⟩] (some 25)
      MTA_1 = .ok [⟨1, "AC", "ON", some 8, some 25, 3200⟩] := by
  rw [optimize_room_occupied_eq
    (by norm_num [_validate_inputs, firstApplianceMismatch, MTA_1])
    (by norm_num) (by norm_num)]
  simp only [List.map_cons, List.map_nil]
  rw [ac2000_state25]

theorem ac2000_run35 :
    optimize_room ⟨1, 20⟩ ⟨1, 10⟩ [⟨1, 1, "AC", 2000, true, 2⟩] (some 35)
      MTA_1 = .ok [⟨1, "AC", "ON", some 10, some 23, 4000⟩] := by
  rw [optimize_room_occupied_eq
    (by norm_num [_validate_inputs, firstApplianceMismatch, MTA_1])
    (by norm_num) (by norm_num)]
  simp only [List.map_cons, List.map_nil]
  rw [ac2000_state35]

/-- Witness for C9 on the test fixture: at 25°C the AC runs at level 8 with
setpoint 25°C, at 35°C at level 10 with setpoint 23°C. -/
theorem C9_witness : ((8 : Int) ≤ 10) ∧ ((23 : ℚ) ≤ 25) :=
  ⟨(C9_confirmed ⟨1, 20⟩ ⟨1, 10⟩ [⟨1, 1, "AC", 2000, true, 2⟩] MTA_1 25 35
      (by norm_num) _ _ ac2000_run25 ac2000_run35 0 (by norm_num)
      (by norm_num) (by norm_num) upperAscii_AC).1 8 10 rfl rfl,
   (C9_confirmed ⟨1, 20⟩ ⟨1, 10⟩ [⟨1, 1, "AC", 2000, true, 2⟩] MTA_1 25 35
      (by norm_num) _ _ ac2000_run25 ac2000_run35 0 (by norm_num)
      (by norm_num) (by norm_num) upperAscii_AC).2 25 23 rfl rfl⟩

/-! ### Claim C1: occupancy monotonicity of the level -/

theorem ac2000_units5 : _compute_units_on "AC" 2 5 = 1 := by
  unfold _compute_units_on
  rw [if_neg (by norm_num),
    show PEOPLE_PER_UNIT "AC" = 6 from by decide,
    show (⌈((5 : ℤ) : ℚ) / ((6 : ℤ) : ℚ)⌉ : ℤ) = 1 from by
      rw [Int.ceil_eq_iff]; norm_num]
  decide

theorem ac2000_decide5 (lf : ℚ) :
    _decide_appliance_state ⟨1, 1, "AC", 2000, true, 2⟩ 5 lf =
      (true, some 8, 1) := by
  rw [decide_run_adjustable (by decide) (by decide) rfl]
  simp only [upperAscii_AC]
  rw [ac2000_units5, show PEOPLE_PER_UNIT "AC" = 6 from by decide]
  norm_num [_clamp_level, pyRound, Int.fract]

theorem ac2000_units7 : _compute_units_on "AC" 2 7 = 2 := by
  unfold _compute_units_on
  rw [if_neg (by norm_num),
    show PEOPLE_PER_UNIT "AC" = 6 from by decide,
    show (⌈((7 : ℤ) : ℚ) / ((6 : ℤ) : ℚ)⌉ : ℤ) = 2 from by
      rw [Int.ceil_eq_iff]; norm_num]
  decide

theorem ac2000_decide7 (lf : ℚ) :
    _decide_appliance_state ⟨1, 1, "AC", 2000, true, 2⟩ 7 lf =
      (true, some 6, 2) := by
  rw [decide_run_adjustable (by decide) (by decide) rfl]
  simp only [upperAscii_AC]
  rw [ac2000_units7, show PEOPLE_PER_UNIT "AC" = 6 from by decide]
  norm_num [_clamp_level, pyRound, Int.fract]

theorem ac2000_state5 (lf : ℚ) :
    _occupied_state 5 lf none ⟨1, 1, "AC", 2000, true, 2⟩ =
      ⟨1, "AC", "ON", some 8, some 24, 1600⟩ := by
  rw [occupied_state_on_adjustable_ac (ac2000_decide5 lf) upperAscii_AC]
  norm_num [_apply_temperature_bias, _estimate_power, pyInt, _tbase_formula,
    AC_SETPOINT_FALLBACK_C]

theorem ac2000_state7 (lf : ℚ) :
    _occupied_state 7 lf none ⟨1, 1, "AC", 2000, true, 2⟩ =
      ⟨1, "AC", "ON", some 6, some 24, 2400⟩ := by
  rw [occupied_state_on_adjustable_ac (ac2000_decide7 lf) upperAscii_AC]
  norm_num [_apply_temperature_bias, _estimate_power, pyInt, _tbase_formula,
    AC_SETPOINT_FALLBACK_C]

/-- Claim C1, counterexample: the test-fixture AC (adjustable, 2 units,
capacity 6 people per unit) runs at level 8 for 5 occupants but at level 6
for 7 occupants — adding people split the load across a second unit and
lowered the per-unit level, so the emitted level is not monotone in
`people_count` (neither value sits at the clamp ceiling 10). -/
theorem C1_counterexample :
    optimize_room ⟨1, 20⟩ ⟨1, 5⟩ [⟨1, 1, "AC", 2000, true, 2⟩] none MTA_1 =
      .ok [⟨1, "AC", "ON", some 8, some 24, 1600⟩] ∧
    optimize_room ⟨1, 20⟩ ⟨1, 7⟩ [⟨1, 1, "AC", 2000, true, 2⟩] none MTA_1 =
      .ok [⟨1, "AC", "ON", some 6, some 24, 2400⟩] ∧
    ¬ ((8 : Int) ≤ 6) := by
  refine ⟨?_, ?_, by norm_num⟩
  · rw [optimize_room_occupied_eq
      (by norm_num [_validate_inputs, firstApplianceMismatch, MTA_1])
      (by norm_num) (by norm_num)]
    simp only [List.map_cons, List.map_nil]
    rw [ac2000_state5]
  · rw [optimize_room_occupied_eq
      (by norm_num [_validate_inputs, firstApplianceMismatch, MTA_1])
      (by norm_num) (by norm_num)]
    simp only [List.map_cons, List.map_nil]
    rw [ac2000_state7]

theorem occupied_level_formula {people : Int} {lf : ℚ} {t : Option ℚ}
    {a : Appliance} {lv : Int}
    (hn : a.number_of_appliances = 1) (hp : 1 ≤ people)
    (hlv : (_occupied_state people lf t a).level = some lv) :
    lv = _apply_temperature_bias
      (_clamp_level (pyRound (min 1 ((people : ℚ) /
        ((PEOPLE_PER_UNIT (upperAscii a.appliance_type) : ℤ) : ℚ)) * 10))) t := by
  by_cases hc1 : people < 1 ∧ (upperAscii a.appliance_type = "LIGHT" ∨
      upperAscii a.appliance_type = "FAN")
  · exact absurd hc1.1 (by omega)
  by_cases hc2 : people < 2 ∧ upperAscii a.appliance_type = "AC"
  · rw [occupied_state_off (decide_off_low_ac hc2.1 hc2.2)] at hlv
    simp at hlv
  cases hadj : a.adjustable with
  | false =>
    rw [occupied_state_on_nonadjustable
      (decide_run_nonadjustable hc1 hc2 hadj)] at hlv
    simp at hlv
  | true =>
    rw [occupied_state_on_adjustable
      (decide_run_adjustable hc1 hc2 hadj)] at hlv
    have hu : _compute_units_on (upperAscii a.appliance_type)
        a.number_of_appliances people = 1 := by
      rw [hn]; exact compute_units_on_single _ hp
    rw [hu] at hlv
    rw [if_pos (by norm_num : (1 : Int) ≠ 0)] at hlv
    have he := Option.some.inj hlv
    simp only [Int.cast_one, one_mul] at he
    exact he.symm

/-- Claim C1 as amended: the per-appliance level is monotone in
`people_count` as long as the unit count stays fixed — in particular, for an
appliance declaring a single unit (`number_of_appliances = 1`), increasing
the (positive) occupant count never decreases the emitted level.  The
original claim fails when the unit allocator brings a second unit online. -/
theorem C1_amended (room : Room) (occ1 occ2 : Occupancy) (a : Appliance)
    (t : Option ℚ) (sa : SeatingArea) (s1 s2 : ApplianceState) (l1 l2 : Int)
    (hn : a.number_of_appliances = 1)
    (hp1 : 1 ≤ occ1.people_count)
    (hle : occ1.people_count ≤ occ2.people_count)
    (h1 : optimize_room room occ1 [a] t sa = .ok [s1])
    (h2 : optimize_room room occ2 [a] t sa = .ok [s2])
    (hl1 : s1.level = some l1) (hl2 : s2.level = some l2) : l1 ≤ l2 := by
  have hp1' : occ1.people_count ≠ 0 := by omega
  have hp2' : occ2.people_count ≠ 0 := by omega
  have e1 := optimize_room_ok_occupied h1 hp1'
  have e2 := optimize_room_ok_occupied h2 hp2'
  simp only [List.map_cons, List.map_nil] at e1 e2
  have hs1 := (List.cons.inj e1).1
  have hs2 := (List.cons.inj e2).1
  rw [hs1] at hl1
  rw [hs2] at hl2
  have f1 := occupied_level_formula hn hp1 hl1
  have f2 := occupied_level_formula hn (le_trans hp1 hle) hl2
  rw [f1, f2]
  apply temperature_bias_mono_level
  apply clamp_level_mono
  apply pyRound_mono
  have hcap : (0 : ℚ) <
      ((PEOPLE_PER_UNIT (upperAscii a.appliance_type) : ℤ) : ℚ) := by
    exact_mod_cast PEOPLE_PER_UNIT_pos (upperAscii a.appliance_type)
  have hpp : ((occ1.people_count : ℤ) : ℚ) ≤ ((occ2.people_count : ℤ) : ℚ) := by
    exact_mod_cast hle
  have hdiv : ((occ1.people_count : ℤ) : ℚ) /
        ((PEOPLE_PER_UNIT (upperAscii a.appliance_type) : ℤ) : ℚ) ≤
      ((occ2.people_count : ℤ) : ℚ) /
        ((PEOPLE_PER_UNIT (upperAscii a.appliance_type) : ℤ) : ℚ) := by
    exact div_le_div_of_nonneg_right hpp (le_of_lt hcap)
  exact mul_le_mul_of_nonneg_right (min_le_min le_rfl hdiv) (by norm_num)

theorem fanone_decide1 (lf : ℚ) :
    _decide_appliance_state ⟨1, 1, "FAN", 75, true, 1⟩ 1 lf =
      (true, some 2, 1) := by
  rw [decide_run_adjustable (by decide) (by decide) rfl]
  simp only [upperAscii_FAN]
  rw [compute_units_on_single "FAN" (by norm_num),
    show PEOPLE_PER_UNIT "FAN" = 4 from by decide]
  norm_num [_clamp_level, pyRound, Int.fract]

theorem fanone_decide3 (lf : ℚ) :
    _decide_appliance_state ⟨1, 1, "FAN", 75, true, 1⟩ 3 lf =
      (true, some 8, 1) := by
  rw [decide_run_adjustable (by decide) (by decide) rfl]
  simp only [upperAscii_FAN]
  rw [compute_units_on_single "FAN" (by norm_num),
    show PEOPLE_PER_UNIT "FAN" = 4 from by decide]
  norm_num [_clamp_level, pyRound, Int.fract]

theorem fanone_state1 (lf : ℚ) :
    _occupied_state 1 lf none ⟨1, 1, "FAN", 75, true, 1⟩ =
      ⟨1, "FAN", "ON", some 2, none, 15⟩ := by
  rw [occupied_state_on_adjustable (fanone_decide1 lf)]
  norm_num [upperAscii_FAN, _apply_temperature_bias, _estimate_power, pyInt]
  exact fun h => absurd h (by decide)

theorem fanone_state3 (lf : ℚ) :
    _occupied_state 3 lf none ⟨1, 1, "FAN", 75, true, 1⟩ =
      ⟨1, "FAN", "ON", some 8, none, 60⟩ := by
  rw [occupied_state_on_adjustable (fanone_decide3 lf)]
  norm_num [upperAscii_FAN, _apply_temperature_bias, _estimate_power, pyInt]
  exact fun h => absurd h (by decide)

theorem fanone_run1 :
    optimize_room ⟨1, 20⟩ ⟨1, 1⟩ [⟨1, 1, "FAN", 75, true, 1⟩] none MTA_1 =
      .ok [⟨1, "FAN", "ON", some 2, none, 15⟩] := by
  rw [optimize_room_occupied_eq
    (by norm_num [_validate_inputs, firstApplianceMismatch, MTA_1])
    (by norm_num) (by norm_num)]
  simp only [List.map_cons, List.map_nil]
  rw [fanone_state1]

theorem fanone_run3 :
    optimize_room ⟨1, 20⟩ ⟨1, 3⟩ [⟨1, 1, "FAN", 75, true, 1⟩] none MTA_1 =
      .ok [⟨1, "FAN", "ON", some 8, none, 60⟩] := by
  rw [optimize_room_occupied_eq
    (by norm_num [_validate_inputs, firstApplianceMismatch, MTA_1])
    (by norm_num) (by norm_num)]
  simp only [List.map_cons, List.map_nil]
  rw [fanone_state3]

/-- Witness for C1 as amended: a single-unit FAN goes from level 2 at one
occupant to level 8 at three. -/
theorem C1_witness : (2 : Int) ≤ 8 :=
  C1_amended ⟨1, 20⟩ ⟨1, 1⟩ ⟨1, 3⟩ ⟨1, 1, "FAN", 75, true, 1⟩ none MTA_1
    ⟨1, "FAN", "ON", some 2, none, 15⟩ ⟨1, "FAN", "ON", some 8, none, 60⟩ 2 8
    rfl (by norm_num) (by norm_num) fanone_run1 fanone_run3 rfl rfl
